import Mathlib

/-!
Verification of the upgrade-transaction orchestrator library
(`repos/system_upgrade/common/libraries/dnfplugin.py`).

Strings are modelled as `List Char` (`Str`); Python operations used by the
code (`str.split('\n')`, `str.strip()`, `'\n'.join`, `in` for substring
tests, `str.lstrip('/')`, `split(':')[0]`) are embedded as executable
functions below.  A raised `StopActorExecutionError(message, details)` is
modelled by `ClassifyResult.stopError message details` where `details` is
the dict as an ordered association list; a Python exception that the code
does not catch (e.g. `AttributeError` from dereferencing a failed
`re.match`) is modelled by `ClassifyResult.uncaught`.
-/

set_option maxRecDepth 100000

abbrev Str := List Char

/-- Characters removed by Python `str.strip()` (ASCII whitespace). -/
def isPySpace (c : Char) : Bool :=
  c = ' ' || c = '\t' || c = '\n' || c = '\r' || c = '\x0b' || c = '\x0c'

/-- Python `str.strip()`: drop leading and trailing whitespace. -/
def pyStrip (l : Str) : Str :=
  ((l.dropWhile isPySpace).reverse.dropWhile isPySpace).reverse

/-- Python `s.split('\n')` (on the empty string it yields `['']`). -/
def splitNl : Str → List Str
  | [] => [[]]
  | c :: cs =>
    if c = '\n' then [] :: splitNl cs
    else
      match splitNl cs with
      | [] => [[c]]
      | l :: ls => (c :: l) :: ls

/-- Python `'\n'.join(ls)`. -/
def joinNl : List Str → Str
  | [] => []
  | [l] => l
  | l :: l2 :: ls => l ++ '\n' :: joinNl (l2 :: ls)

/-- Python `' '.join(ls)`. -/
def joinSpace : List Str → Str
  | [] => []
  | [l] => l
  | l :: l2 :: ls => l ++ ' ' :: joinSpace (l2 :: ls)

/-- The space-exhaustion marker `NO_SPACE_STR` from the source. -/
def noSpaceStr : Str := "more space needed on the".data

/-- `_DEDICATED_URL` from the source. -/
def dedicatedUrl : Str := "https://access.redhat.com/solutions/7011704".data

/-- `DNF_PLUGIN_DATA_PATH` from the source. -/
def dnfPluginDataPath : Str := "/var/lib/leapp/dnf-plugin-data.txt".data

/-- The literal prefix of the pattern `At least (.*) more space needed`. -/
def atLeastPre : Str := "At least ".data

/-- The literal trailer of the pattern `At least (.*) more space needed`. -/
def moreSpaceNeededLit : Str := " more space needed".data

/-- Rightmost index of `t` at which `needle` occurs (as a prefix of the
remainder), mirroring the backtracking of a greedy `(.*)`. -/
def rfindSub (needle t : Str) : Option Nat :=
  ((List.range (t.length + 1)).reverse).find? (fun i => decide (needle <+: t.drop i))

/-- Models `re.match(r'At least (.*) more space needed', s)` followed by
`.group(1)`, for single-line inputs (every caller passes one element of a
`'\n'`-split, so `.` never meets a newline): the match succeeds iff `s`
starts with `At least ` and ` more space needed` occurs afterwards; the
greedy group is everything up to the rightmost such occurrence.  `none`
models `re.match` returning `None`. -/
def matchAtLeast (s : Str) : Option Str :=
  if atLeastPre <+: s then
    match rfindSub moreSpaceNeededLit (s.drop atLeastPre.length) with
    | some i => some ((s.drop atLeastPre.length).take i)
    | none => none
  else none

/-- Captured output of a failed process call (`e.stdout` / `e.stderr` of a
`CalledProcessError`). -/
structure ErrInfo where
  stdout : Str
  stderr : Str
  deriving DecidableEq

/-- The XFS facts consumed by the legacy classifier (`xfs_info.present`,
`xfs_info.without_ftype`). -/
structure XfsInfo where
  present : Bool
  without_ftype : Bool
  deriving DecidableEq

/-- Outcome of `_handle_transaction_err_msg` (and of its legacy variant):
either the structured `StopActorExecutionError` that the function raises,
or an uncaught Python exception escaping it. -/
inductive ClassifyResult where
  | stopError (message : Str) (details : List (String × Str))
  | uncaught
  deriving DecidableEq

/-- Message `'DNF execution failed with non zero exit code.'`. -/
def dnfFailMsg : Str := "DNF execution failed with non zero exit code.".data

/-- Legacy space-failure message (source lines 161-162). -/
def oldSpaceMsg : Str :=
  ("There is not enough space on the file system hosting /var/lib/leapp directory to extract the packages.").data

/-- Legacy space-failure hint, parameterised by the article section. -/
def oldSpaceHint (sec : Str) : Str :=
  "Please follow the instructions in the \x27".data ++ sec ++
    "\x27 section of the article at: link: https://access.redhat.com/solutions/5057391".data

/-- The proxy-configuration remediation hint of the generic branch. -/
def proxyHint : Str :=
  ("If there was a problem reaching remote content (see stderr output) and proxy is configured in the YUM/DNF configuration file, the proxy configuration is likely causing this error. Make sure the proxy is properly configured in /etc/dnf/dnf.conf. It\x27s also possible the proxy settings in the DNF configuration file are incompatible with the target system. A compatible configuration can be placed in /etc/leapp/files/dnf.conf which, if present, it will be used during some parts of the upgrade instead of original /etc/dnf/dnf.conf. In such case the configuration will also be applied to the target system. Note that /etc/dnf/dnf.conf needs to be still configured correctly for your current system to pass the early phases of the upgrade process.").data

/-- Container space-failure message. -/
def containerSpaceMsg : Str :=
  "There is not enough space on the file system hosting /var/lib/leapp.".data

/-- Text of the container space-failure hint before the first format slot. -/
def containerHintPre : Str :=
  "Increase the free space on the filesystem hosting /var/lib/leapp by ".data

/-- Text of the container space-failure hint after the first format slot
(the second slot is `_DEDICATED_URL`). -/
def containerHintPost : Str :=
  ("\x20at minimum. It is suggested to provide reasonably more space to be able to perform all planned actions (e.g. when 200MB is missing, add 1700MB or more).\n\nIt is also a good practice to create dedicated partition for /var/lib/leapp when more space is needed, which can be dropped after the system upgrade is fully completed For more info, see: ").data ++
    dedicatedUrl

/-- Container space-failure hint with the parsed size interpolated. -/
def containerHint (sizeStr : Str) : Str :=
  containerHintPre ++ sizeStr ++ containerHintPost

/-- Non-container space-failure message. -/
def targetSpaceMsg : Str :=
  "There is not enough space on some file systems to perform the upgrade transaction.".data

/-- Non-container space-failure hint. -/
def targetSpaceHint : Str :=
  ("Increase the free space on listed filesystems. Presented values are required minimum calculated by RPM and it is suggested to provide reasonably more free space (e.g. when 200 MB is missing on /usr, add 1200MB or more).").data

/-- `missing_space` of the classifier: the stderr lines containing the
marker, each stripped (`[line.strip() for line in err.stderr.split('\n')
if NO_SPACE_STR in line]`). -/
def missingSpaceLines (stderr : Str) : List Str :=
  ((splitNl stderr).filter (fun l => decide (noSpaceStr <:+: l))).map pyStrip

/-- `_handle_transaction_err_msg_old` (legacy classification path).  When
the space branch is entered with `xfs_info = None` the attribute access
`xfs_info.present` would raise; hence `uncaught` there. -/
def handleTransactionErrMsgOld (stage : Str) (xfs : Option XfsInfo) (err : ErrInfo) :
    ClassifyResult :=
  if noSpaceStr <:+: err.stderr ∧ stage ≠ "upgrade".data then
    match xfs with
    | none => ClassifyResult.uncaught
    | some x =>
      ClassifyResult.stopError oldSpaceMsg
        [("hint", oldSpaceHint
            (if x.present && x.without_ftype then "XFS ftype=0 case".data
             else "Generic case".data))]
  else
    ClassifyResult.stopError dnfFailMsg [("STDOUT", err.stdout), ("STDERR", err.stderr)]

/-- The current (non-legacy) classification in `_handle_transaction_err_msg`
(source lines 176-236).  `missing_space[0]` on an empty list would raise
`IndexError` and `.group(1)` on a failed `re.match` raises
`AttributeError`; both are `uncaught`. -/
def handleTransactionErrMsgCurrent (stage : Str) (err : ErrInfo) (isContainer : Bool) :
    ClassifyResult :=
  if ¬ (noSpaceStr <:+: err.stderr) then
    ClassifyResult.stopError dnfFailMsg
      [("STDOUT", err.stdout), ("STDERR", err.stderr), ("hint", proxyHint)]
  else
    if isContainer then
      match (missingSpaceLines err.stderr).head? with
      | none => ClassifyResult.uncaught
      | some first =>
        match matchAtLeast first with
        | none => ClassifyResult.uncaught
        | some sizeStr =>
          ClassifyResult.stopError containerSpaceMsg [("hint", containerHint sizeStr)]
    else
      ClassifyResult.stopError targetSpaceMsg
        [("hint", targetSpaceHint),
         ("Disk Requirements", joinNl (missingSpaceLines err.stderr))]

/-- `_handle_transaction_err_msg(stage, xfs_info, err, is_container)`:
the legacy path is taken when `get_env('LEAPP_OVL_LEGACY', '0') == '1'`
and the invocation was not inside a container; otherwise the current
classification runs.  `legacyOvl` is the value of the environment
override (default `'0'` when unset). -/
def handleTransactionErrMsg (legacyOvl stage : Str) (xfs : Option XfsInfo)
    (err : ErrInfo) (isContainer : Bool) : ClassifyResult :=
  if legacyOvl = "1".data ∧ isContainer = false then
    handleTransactionErrMsgOld stage xfs err
  else
    handleTransactionErrMsgCurrent stage err isContainer

/-- A `(name, stream)` module record (`tasks.modules_to_reset` /
`tasks.modules_to_enable` entries). -/
structure DnfModule where
  name : Str
  stream : Str
  deriving DecidableEq

/-- The module fields of the DNF upgrade tasks consumed by `_transaction`
(the package lists are irrelevant to the properties below). -/
structure Tasks where
  modules_to_reset : List DnfModule
  modules_to_enable : List DnfModule
  deriving DecidableEq

/-- The module-reset list of `_transaction` (source lines 278-280):
`(name, stream)` pair sets are built from both task lists, their set
difference is taken, and the result is projected to names.  Python-set
semantics are modelled by `dedup` and a membership filter; Python does not
fix a set iteration order, and every property proved below is insensitive
to the order chosen here (input order). -/
def moduleResetList (toReset toEnable : List DnfModule) : List Str :=
  (((toReset.map (fun m => (m.name, m.stream))).dedup).filter
      (fun p => decide (p ∉ toEnable.map (fun m => (m.name, m.stream))))).map Prod.fst

/-- A plugin-info record (`info.name`, `info.disable_in`). -/
structure PluginInfo where
  name : Str
  disable_in : List Str
  deriving DecidableEq

/-- `common_params` assembled by `_transaction` (source lines 259-267):
verbosity flag, subscription-manager disable, and per-stage plugin
disables in delivery order. -/
def commonParams (verbose skipRhsm : Bool) (pluginInfo : List PluginInfo) (stage : Str) :
    List Str :=
  (if verbose then ["-v".data] else []) ++
  (if skipRhsm then ["--disableplugin".data, "subscription-manager".data] else []) ++
  (pluginInfo.filter (fun i => decide (stage ∈ i.disable_in))).flatMap
    (fun i => ["--disableplugin".data, i.name])

/-- Result of one `context.call` invocation: success, an `OSError` (the
process could not be launched), or a `CalledProcessError` (non-zero exit)
carrying its rendered message and captured output. -/
inductive CallResult where
  | ok
  | osError (msg : Str)
  | calledProcessError (msg : Str) (err : ErrInfo)
  deriving DecidableEq

/-- Global configuration read by `_transaction` from its collaborators:
`config.is_debug()`, `config.is_verbose()`, `rhsm.skip_rhsm()`,
`get_target_major_version()` and the `LEAPP_OVL_LEGACY` override. -/
structure TransCfg where
  debug : Bool
  verbose : Bool
  skipRhsm : Bool
  targetMajor : Str
  legacyOvl : Str
  deriving DecidableEq

/-- Behaviour of the external world during one `_transaction` run: whether
`context.copy_from` (Plan archival) succeeds, whether the module-reset
call succeeds, the result of the main dnf call, and whether
`context.copytree_from` (debug-data copy) succeeds. -/
structure TransEnv where
  backupConfigOk : Bool
  moduleResetOk : Bool
  dnfResult : CallResult
  copytreeOk : Bool
  deriving DecidableEq

/-- Observable actions of one `_transaction` run, in order. -/
inductive TEvent where
  | createConfig
  | backupConfigCall
  | call (argv : List Str)
  | debugCopyAttempt
  | logDebugCopyFailed
  | logModuleResetFailed
  | logDnfError
  deriving DecidableEq

/-- Final result of one `_transaction` run: success, a raised
`StopActorExecutionError`, or some other exception propagating
(e.g. the un-wrapped `copy_from` failure in `backup_config`). -/
inductive TOutcome where
  | success
  | stopError (message : Str) (details : List (String × Str))
  | raised
  deriving DecidableEq

/-- `backup_debug_data(context)`: only in debug mode is the copy
attempted; an `OSError` from the copy is caught and logged. -/
def backupDebugData (debug copytreeOk : Bool) : List TEvent :=
  if debug then
    TEvent.debugCopyAttempt :: (if copytreeOk then [] else [TEvent.logDebugCopyFailed])
  else []

/-- The optimistic module-reset block of `_transaction` (source lines
269-292): only on target major version 9, for the `check` and `upgrade`
stages, and only when `tasks.modules_to_reset` is non-empty; a failure of
the call is logged and swallowed. -/
def resetEvents (cfg : TransCfg) (env : TransEnv) (stage : Str) (tasks : Tasks)
    (cmdPre cp : List Str) : List TEvent :=
  if cfg.targetMajor = "9".data ∧ stage ∈ ["check".data, "upgrade".data] ∧
      tasks.modules_to_reset ≠ [] then
    TEvent.call (cmdPre ++
        (["/usr/bin/dnf".data, "module".data, "reset".data, "--enabled".data] ++
          moduleResetList tasks.modules_to_reset tasks.modules_to_enable ++
          ["--disablerepo".data, "*".data, "-y".data, "--installroot".data,
           "/installroot".data]) ++ cp)
      :: (if env.moduleResetOk then [] else [TEvent.logModuleResetFailed])
  else []

/-- `_transaction(context, stage, ...)` as a trace semantics: the ordered
list of observable actions plus the final outcome.  Stage order follows
the source exactly: conditional `create_config`, unguarded
`backup_config`, optional module reset, the main dnf call inside
`try/except/finally` whose `finally` runs `backup_debug_data` for the
`check` stage, and classification of a `CalledProcessError` via
`_handle_transaction_err_msg(..., is_container=False)`.  The Plan payload
written by `create_config` and the guard context managers are not
modelled (no claim below depends on them). -/
def transactionRun (cfg : TransCfg) (env : TransEnv) (stage : Str) (tasks : Tasks)
    (pluginInfo : List PluginInfo) (cmdPre : List Str) (xfs : Option XfsInfo) :
    List TEvent × TOutcome :=
  let ev0 : List TEvent :=
    if stage ∈ ["dry-run".data, "upgrade".data] then [] else [TEvent.createConfig]
  if env.backupConfigOk = false then
    (ev0 ++ [TEvent.backupConfigCall], TOutcome.raised)
  else
    let cp := commonParams cfg.verbose cfg.skipRhsm pluginInfo stage
    let rEv := resetEvents cfg env stage tasks cmdPre cp
    let dnfArgv := cmdPre ++
      ["/usr/bin/dnf".data, "rhel-upgrade".data, stage, dnfPluginDataPath] ++ cp
    let fin : List TEvent :=
      if stage = "check".data then backupDebugData cfg.debug env.copytreeOk else []
    match env.dnfResult with
    | CallResult.ok =>
      (ev0 ++ [TEvent.backupConfigCall] ++ rEv ++ [TEvent.call dnfArgv] ++ fin,
       TOutcome.success)
    | CallResult.osError m =>
      (ev0 ++ [TEvent.backupConfigCall] ++ rEv ++ [TEvent.call dnfArgv] ++
         [TEvent.logDnfError] ++ fin,
       TOutcome.stopError ("Failed to execute dnf. Reason: ".data ++ m) [])
    | CallResult.calledProcessError _ err =>
      (ev0 ++ [TEvent.backupConfigCall] ++ rEv ++ [TEvent.call dnfArgv] ++
         [TEvent.logDnfError] ++ fin,
       match handleTransactionErrMsg cfg.legacyOvl stage xfs err false with
       | ClassifyResult.stopError m d => TOutcome.stopError m d
       | ClassifyResult.uncaught => TOutcome.raised)

/-- A `DNFWorkaround` descriptor. -/
structure DNFWorkaround where
  display_name : Str
  script_path : Str
  script_args : List Str
  deriving DecidableEq

/-- `cmd_str` built by `apply_workarounds` for one workaround. -/
def workaroundCmdStr (w : DNFWorkaround) : Str :=
  if w.script_args ≠ [] then
    w.script_path ++ ' ' :: joinSpace w.script_args
  else w.script_path

/-- The argv passed to `context.call` for one workaround. -/
def workaroundArgv (w : DNFWorkaround) : List Str :=
  ["/bin/bash".data, "-c".data, workaroundCmdStr w]

/-- The `StopActorExecutionError` message raised when a workaround fails. -/
def workaroundErrMsg (w : DNFWorkaround) (errText : Str) : Str :=
  "Failed to execute script to apply transaction workaround ".data ++ w.display_name ++
    ". Message: ".data ++ errText

/-- `apply_workarounds(context)`: consume the delivered workarounds in
order, calling each through `/bin/bash -c`; the first `OSError` or
`CalledProcessError` raises immediately.  Returns the ordered list of
argvs actually invoked and the raised message, if any. -/
def applyWorkarounds (ws : List DNFWorkaround) (exec : List Str → CallResult) :
    List (List Str) × Option Str :=
  match ws with
  | [] => ([], none)
  | w :: rest =>
    match exec (workaroundArgv w) with
    | CallResult.ok =>
      let r := applyWorkarounds rest exec
      (workaroundArgv w :: r.1, r.2)
    | CallResult.osError m => ([workaroundArgv w], some (workaroundErrMsg w m))
    | CallResult.calledProcessError m _ => ([workaroundArgv w], some (workaroundErrMsg w m))

/-- A filesystem-table entry (only the mount point `entry.fs_file`
matters to the bind-mount builder). -/
structure FstabEntry where
  fs_file : Str
  deriving DecidableEq

/-- The unconditional binds plus the version-dependent `/sys` bind of
`perform_transaction_install` (source lines 400-413). -/
def upgradeBaseBinds (major : Str) : List Str :=
  ["/:/installroot".data, "/dev:/installroot/dev".data, "/proc:/installroot/proc".data,
   "/run/udev:/installroot/run/udev".data] ++
  [if major = "8".data then "/sys:/installroot/sys".data
   else "/hostsys:/installroot/sys".data]

/-- `already_mounted = {entry.split(':')[0] for entry in bind_mounts}`,
computed once over the base binds before the fstab loop. -/
def alreadyMountedSet (major : Str) : List Str :=
  (upgradeBaseBinds major).map (List.takeWhile (fun c => !(c = ':')))

/-- `os.path.join('/installroot', mp.lstrip('/'))`. -/
def installrootJoin (mp : Str) : Str :=
  "/installroot/".data ++ mp.dropWhile (fun c => c = '/')

/-- The bind `'{}:{}'.format(mp, os.path.join('/installroot', mp.lstrip('/')))`. -/
def fstabBind (e : FstabEntry) : Str :=
  e.fs_file ++ ':' :: installrootJoin e.fs_file

/-- The binds appended by the fstab loop, in fstab order: one per entry
whose mount point is a directory (`os.path.isdir`) and is not already
covered by the base binds. -/
def fstabBinds (major : Str) (fstab : List FstabEntry) (isDir : Str → Bool) : List Str :=
  (fstab.filter (fun e => isDir e.fs_file && decide (e.fs_file ∉ alreadyMountedSet major))).map
    fstabBind

/-- The full bind-mount list computed by `perform_transaction_install`
for the terminal `upgrade` stage: base binds, fstab-derived binds, then
`/boot` and `/boot/efi` each only when `os.path.ismount` reports it as a
mount point. -/
def computeBindMounts (major : Str) (fstab : List FstabEntry)
    (isDir isMount : Str → Bool) : List Str :=
  upgradeBaseBinds major ++ fstabBinds major fstab isDir ++
  (if isMount "/boot".data then ["/boot:/installroot/boot".data] else []) ++
  (if isMount "/boot/efi".data then ["/boot/efi:/installroot/boot/efi".data] else [])

/-- Recogniser for the debug-artifact copy attempt event. -/
def isDebugCopy : TEvent → Bool
  | TEvent.debugCopyAttempt => true
  | _ => false

/-! Concrete sample data used by witnesses and counterexamples. -/

/-- A space-exhaustion stderr whose single marker line carries leading
whitespace, as dnf prints it under `Disk Requirements:`. -/
def errSpace : ErrInfo :=
  { stdout := [],
    stderr := "  At least 100MB more space needed on the /var filesystem".data }

/-- A stderr containing the marker whose marker line does not start with
`At least`, so the container-branch `re.match` returns `None`. -/
def errBadLine : ErrInfo :=
  { stdout := [], stderr := "needs more space needed on the /var filesystem".data }

/-- A stderr with no space marker at all. -/
def errNoSpace : ErrInfo :=
  { stdout := "out".data, stderr := "Failed to synchronize cache for repo".data }

/-- A whitespace-free space-exhaustion stderr. -/
def errSpacePlain : ErrInfo :=
  { stdout := [], stderr := "At least 1GB more space needed on the /var filesystem".data }

/-- XFS facts with `ftype=0`. -/
def xfsFix : XfsInfo := { present := true, without_ftype := true }

def wFix1 : DNFWorkaround :=
  { display_name := "first".data, script_path := "/w1".data, script_args := [] }

def wFix2 : DNFWorkaround :=
  { display_name := "second".data, script_path := "/w2".data, script_args := ["a".data] }

def wFix3 : DNFWorkaround :=
  { display_name := "third".data, script_path := "/w3".data, script_args := [] }

/-- An execution oracle under which exactly `wFix2` fails (non-zero exit). -/
def execFix : List Str → CallResult := fun argv =>
  if argv = workaroundArgv wFix2 then
    CallResult.calledProcessError "boom".data { stdout := [], stderr := [] }
  else CallResult.ok

def cfgFix : TransCfg :=
  { debug := true, verbose := false, skipRhsm := false,
    targetMajor := "9".data, legacyOvl := "0".data }

def tasksFix : Tasks := { modules_to_reset := [], modules_to_enable := [] }

/-- Environment where the main dnf call exits non-zero (no space marker). -/
def envFailDnf : TransEnv :=
  { backupConfigOk := true, moduleResetOk := true,
    dnfResult := CallResult.calledProcessError "cpe".data errNoSpace, copytreeOk := true }

/-- Environment where every external call succeeds. -/
def envOkDnf : TransEnv :=
  { backupConfigOk := true, moduleResetOk := true,
    dnfResult := CallResult.ok, copytreeOk := true }

/-- Environment where the Plan archival copy (`context.copy_from`) raises. -/
def envNoBackup : TransEnv :=
  { backupConfigOk := false, moduleResetOk := true,
    dnfResult := CallResult.ok, copytreeOk := true }

/-! Helper lemmas. -/

/-- Splitting an append at a separator absent from both left parts is
injective on the parts. -/
theorem append_colon_inj (a : Str) : ∀ (b r1 r2 : Str), ':' ∉ a → ':' ∉ b →
    a ++ ':' :: r1 = b ++ ':' :: r2 → a = b ∧ r1 = r2 := by
  induction a with
  | nil =>
    intro b r1 r2 _ hb h
    cases b with
    | nil =>
      simp only [List.nil_append, List.cons.injEq] at h
      exact ⟨rfl, h.2⟩
    | cons c bs =>
      simp only [List.nil_append, List.cons_append, List.cons.injEq] at h
      exact absurd (List.mem_cons.mpr (Or.inl h.1)) hb
  | cons x xs ih =>
    intro b r1 r2 ha hb h
    cases b with
    | nil =>
      simp only [List.cons_append, List.nil_append, List.cons.injEq] at h
      exact absurd (List.mem_cons.mpr (Or.inl h.1.symm)) ha
    | cons y ys =>
      simp only [List.cons_append, List.cons.injEq] at h
      have ha' : ':' ∉ xs := fun hm => ha (List.mem_cons_of_mem _ hm)
      have hb' : ':' ∉ ys := fun hm => hb (List.mem_cons_of_mem _ hm)
      obtain ⟨he, hr⟩ := ih ys r1 r2 ha' hb' h.2
      exact ⟨by rw [h.1, he], hr⟩

/-- Every element of a joined line list is an infix of the join. -/
theorem infix_joinNl_of_mem {a : Str} : ∀ {L : List Str}, a ∈ L → a <:+: joinNl L := by
  intro L
  induction L with
  | nil => intro h; cases h
  | cons b t ih =>
    intro h
    rcases List.mem_cons.mp h with rfl | hmem
    · cases t with
      | nil => exact List.infix_rfl
      | cons c u => exact ⟨[], '\n' :: joinNl (c :: u), by simp [joinNl]⟩
    · cases t with
      | nil => cases hmem
      | cons c u =>
        exact (ih hmem).trans ⟨b ++ ['\n'], [], by simp [joinNl]⟩

/-! ### C3: module-reset list is a set difference over (name, stream) pairs -/

/-- C3 (confirmed): the reset list passed to `dnf module reset` is the
set difference `modules_to_reset − modules_to_enable` over
`(name, stream)` pairs, projected to names; in the spec's concrete
instance with `modules_to_reset = {(A,1),(B,2)}` and
`modules_to_enable = {(A,1)}` the list is exactly `[B]`. -/
theorem c3_module_reset_set_difference :
    moduleResetList
        [{ name := "A".data, stream := "1".data }, { name := "B".data, stream := "2".data }]
        [{ name := "A".data, stream := "1".data }] = ["B".data]
    ∧ ∀ (r e : List DnfModule) (n : Str),
        n ∈ moduleResetList r e ↔
          ∃ s, (n, s) ∈ r.map (fun m => (m.name, m.stream)) ∧
               (n, s) ∉ e.map (fun m => (m.name, m.stream)) := by
  constructor
  · decide
  · intro r e n
    simp only [moduleResetList, List.mem_map, List.mem_filter, List.mem_dedup,
      decide_eq_true_eq]
    constructor
    · rintro ⟨⟨pn, ps⟩, ⟨hmem, hnotin⟩, rfl⟩
      exact ⟨ps, hmem, hnotin⟩
    · rintro ⟨s, hmem, hnotin⟩
      exact ⟨(n, s), ⟨hmem, hnotin⟩, rfl⟩

/-- Witness for C3: the membership characterisation applied at the
concrete instance. -/
theorem c3_module_reset_set_difference_witness :
    "B".data ∈ moduleResetList
        [{ name := "A".data, stream := "1".data }, { name := "B".data, stream := "2".data }]
        [{ name := "A".data, stream := "1".data }] :=
  (c3_module_reset_set_difference.2
      [{ name := "A".data, stream := "1".data }, { name := "B".data, stream := "2".data }]
      [{ name := "A".data, stream := "1".data }] "B".data).mpr
    ⟨"2".data, by decide, by decide⟩

/-! ### C8: workarounds applied in order, fail-fast, naming the failure -/

/-- C8 (confirmed): `apply_workarounds` executes the delivered
descriptors strictly in order; with every workaround before `w`
succeeding and `w` failing (non-zero exit or launch error with rendered
message `m`), exactly the workarounds up to and including `w` are
invoked, in delivery order, the raised message names `w`'s display name,
and no later workaround is attempted. -/
theorem c8_workarounds_fail_fast (ws1 ws2 : List DNFWorkaround) (w : DNFWorkaround)
    (exec : List Str → CallResult) (m : Str)
    (hok : ∀ u ∈ ws1, exec (workaroundArgv u) = CallResult.ok)
    (hfail : (∃ e, exec (workaroundArgv w) = CallResult.calledProcessError m e) ∨
             exec (workaroundArgv w) = CallResult.osError m) :
    applyWorkarounds (ws1 ++ w :: ws2) exec =
      (ws1.map workaroundArgv ++ [workaroundArgv w], some (workaroundErrMsg w m))
    ∧ w.display_name <:+: workaroundErrMsg w m := by
  constructor
  · induction ws1 with
    | nil =>
      simp only [List.nil_append, applyWorkarounds, List.map_nil]
      rcases hfail with ⟨e, he⟩ | he <;> rw [he]
    | cons u us ih =>
      have hu := hok u (List.mem_cons_self u us)
      have ih' := ih (fun v hv => hok v (List.mem_cons_of_mem _ hv))
      simp only [List.cons_append, applyWorkarounds, hu, List.map_cons, List.append_eq, ih']
  · exact ⟨"Failed to execute script to apply transaction workaround ".data,
      ". Message: ".data ++ m, by simp [workaroundErrMsg]⟩

/-- Witness for C8: three concrete workarounds where the second fails;
the trace is exactly the first two invocations and the raised message
names the second workaround. -/
theorem c8_workarounds_fail_fast_witness :
    applyWorkarounds [wFix1, wFix2, wFix3] execFix =
      ([workaroundArgv wFix1, workaroundArgv wFix2],
        some (workaroundErrMsg wFix2 "boom".data))
    ∧ wFix2.display_name <:+: workaroundErrMsg wFix2 "boom".data := by
  have h := c8_workarounds_fail_fast [wFix1] [wFix3] wFix2 execFix "boom".data
    (by decide) (Or.inl ⟨{ stdout := [], stderr := [] }, by decide⟩)
  exact h

/-! ### C1: space-failure classification (corrected) -/

/-- C1 (amended): with the legacy override unset and the space marker in
stderr, the classifier raises exactly one categorized error, where
(a) for `is_container=False` the category is the target-disk-space one
and its `Disk Requirements` detail is the newline-join of every marker
line stripped of surrounding whitespace — every marker line appears
(stripped) and none are dropped; and (b) for `is_container=True`,
provided the first (stripped) marker line matches the pattern
`At least (.*) more space needed`, the category is the container
disk-space one and its hint contains the parsed size token. -/
theorem c1_space_classification (legacyOvl stage : Str) (xfs : Option XfsInfo)
    (err : ErrInfo)
    (hleg : legacyOvl ≠ "1".data)
    (hmark : noSpaceStr <:+: err.stderr) :
    (handleTransactionErrMsg legacyOvl stage xfs err false =
        ClassifyResult.stopError targetSpaceMsg
          [("hint", targetSpaceHint),
           ("Disk Requirements", joinNl (missingSpaceLines err.stderr))]
      ∧ ∀ l ∈ splitNl err.stderr, noSpaceStr <:+: l →
          pyStrip l <:+: joinNl (missingSpaceLines err.stderr))
    ∧ ∀ first sizeStr,
        (missingSpaceLines err.stderr).head? = some first →
        matchAtLeast first = some sizeStr →
        handleTransactionErrMsg legacyOvl stage xfs err true =
          ClassifyResult.stopError containerSpaceMsg [("hint", containerHint sizeStr)]
        ∧ sizeStr <:+: containerHint sizeStr := by
  refine ⟨⟨?_, ?_⟩, ?_⟩
  · rw [handleTransactionErrMsg, if_neg (fun h => hleg h.1), handleTransactionErrMsgCurrent,
      if_neg (not_not_intro hmark)]
    rfl
  · intro l hl hml
    apply infix_joinNl_of_mem
    simp only [missingSpaceLines, List.mem_map, List.mem_filter, decide_eq_true_eq]
    exact ⟨l, ⟨hl, hml⟩, rfl⟩
  · intro first sizeStr hfirst hmatch
    constructor
    · rw [handleTransactionErrMsg,
        if_neg (fun (h : _ ∧ (true : Bool) = false) => Bool.noConfusion h.2)]
      simp [handleTransactionErrMsgCurrent, hmark, hfirst, hmatch]
    · exact ⟨containerHintPre, containerHintPost, rfl⟩

/-- Witness for C1: a concrete space-exhaustion stderr classified in
both the container and the non-container mode. -/
theorem c1_space_classification_witness :
    handleTransactionErrMsg "0".data "check".data none errSpace false =
      ClassifyResult.stopError targetSpaceMsg
        [("hint", targetSpaceHint),
         ("Disk Requirements", joinNl (missingSpaceLines errSpace.stderr))]
    ∧ handleTransactionErrMsg "0".data "check".data none errSpace true =
      ClassifyResult.stopError containerSpaceMsg [("hint", containerHint "100MB".data)] := by
  have h := c1_space_classification "0".data "check".data none errSpace
    (by decide) (by decide)
  exact ⟨h.1.1,
    (h.2 "At least 100MB more space needed on the /var filesystem".data "100MB".data
      (by decide) (by decide)).1⟩

/-- Counterexample for C1 as frozen: (a) a stderr containing the marker
whose marker line does not start with `At least` makes the container
branch crash (no categorized error is raised), and (b) the details hold
the *stripped* marker line — the original line with its leading
whitespace is not contained verbatim. -/
theorem c1_space_classification_counterexample :
    handleTransactionErrMsg "0".data "check".data none errBadLine true =
      ClassifyResult.uncaught
    ∧ handleTransactionErrMsg "0".data "check".data none errSpace false =
      ClassifyResult.stopError targetSpaceMsg
        [("hint", targetSpaceHint),
         ("Disk Requirements",
          "At least 100MB more space needed on the /var filesystem".data)]
    ∧ ¬ ("  At least 100MB more space needed on the /var filesystem".data <:+:
          "At least 100MB more space needed on the /var filesystem".data) := by
  exact ⟨by decide, by decide, by decide⟩

/-! ### C2: generic (no-marker) classification (corrected) -/

/-- C2 (amended): with the legacy override unset and no space marker in
stderr, the classifier always raises the generic failure whose details
hold the full stdout, the full stderr and the proxy-configuration hint —
for container and non-container invocations alike (the code never guards
the proxy hint on `is_container`). -/
theorem c2_generic_classification (stage : Str) (xfs : Option XfsInfo) (err : ErrInfo)
    (isContainer : Bool)
    (hmark : ¬ (noSpaceStr <:+: err.stderr)) :
    handleTransactionErrMsg "0".data stage xfs err isContainer =
      ClassifyResult.stopError dnfFailMsg
        [("STDOUT", err.stdout), ("STDERR", err.stderr), ("hint", proxyHint)] := by
  have h0 : ¬ (("0".data : Str) = "1".data ∧ isContainer = false) := by
    rintro ⟨h, -⟩
    exact absurd h (by decide)
  rw [handleTransactionErrMsg, if_neg h0, handleTransactionErrMsgCurrent, if_pos hmark]

/-- Witness for C2: a concrete marker-free stderr classified in both
modes. -/
theorem c2_generic_classification_witness :
    handleTransactionErrMsg "0".data "check".data none errNoSpace true =
      ClassifyResult.stopError dnfFailMsg
        [("STDOUT", errNoSpace.stdout), ("STDERR", errNoSpace.stderr), ("hint", proxyHint)]
    ∧ handleTransactionErrMsg "0".data "check".data none errNoSpace false =
      ClassifyResult.stopError dnfFailMsg
        [("STDOUT", errNoSpace.stdout), ("STDERR", errNoSpace.stderr), ("hint", proxyHint)] :=
  ⟨c2_generic_classification "check".data none errNoSpace true (by decide),
   c2_generic_classification "check".data none errNoSpace false (by decide)⟩

/-- Counterexample for C2 as frozen: for a container invocation with no
marker, the details do contain the proxy hint, contradicting "never for
container invocations". -/
theorem c2_generic_classification_counterexample :
    handleTransactionErrMsg "0".data "check".data none errNoSpace true =
      ClassifyResult.stopError dnfFailMsg
        [("STDOUT", "out".data), ("STDERR", errNoSpace.stderr), ("hint", proxyHint)]
    ∧ ("hint", proxyHint) ∈
        [(("STDOUT" : String), "out".data), ("STDERR", errNoSpace.stderr),
         ("hint", proxyHint)] := by
  exact ⟨by decide, by simp⟩

/-! ### C9: legacy classification path (corrected) -/

/-- C9 (amended): the legacy path runs exactly when the override equals
`1` and the invocation is not in a container, and is then mutually
exclusive with the current classification (the result is precisely the
legacy handler's); when the legacy handler sees a space failure at a
stage other than `upgrade` it picks the `XFS ftype=0 case` article
section exactly when XFS is present without ftype and the
`Generic case` section otherwise — but for `stage = 'upgrade'` the
legacy handler treats even a space failure as the generic DNF failure
with no article section (the restriction the counterexample forces). -/
theorem c9_legacy_path (legacyOvl stage : Str) (x : XfsInfo) (xfs : Option XfsInfo)
    (err : ErrInfo) (isContainer : Bool) :
    (legacyOvl = "1".data ∧ isContainer = false →
      handleTransactionErrMsg legacyOvl stage xfs err isContainer =
        handleTransactionErrMsgOld stage xfs err)
    ∧ (¬ (legacyOvl = "1".data ∧ isContainer = false) →
      handleTransactionErrMsg legacyOvl stage xfs err isContainer =
        handleTransactionErrMsgCurrent stage err isContainer)
    ∧ (noSpaceStr <:+: err.stderr → stage ≠ "upgrade".data →
      handleTransactionErrMsgOld stage (some x) err =
        ClassifyResult.stopError oldSpaceMsg
          [("hint", oldSpaceHint
              (if x.present && x.without_ftype then "XFS ftype=0 case".data
               else "Generic case".data))]) := by
  refine ⟨fun h => ?_, fun h => ?_, fun h1 h2 => ?_⟩
  · rw [handleTransactionErrMsg, if_pos h]
  · rw [handleTransactionErrMsg, if_neg h]
  · rw [handleTransactionErrMsgOld, if_pos ⟨h1, h2⟩]

/-- Witness for C9: all three amended clauses applied at concrete
inputs (override set and unset, a space failure at stage `check` with
XFS present without ftype). -/
theorem c9_legacy_path_witness :
    handleTransactionErrMsg "1".data "check".data (some xfsFix) errSpacePlain false =
      handleTransactionErrMsgOld "check".data (some xfsFix) errSpacePlain
    ∧ handleTransactionErrMsg "0".data "check".data (some xfsFix) errSpacePlain false =
      handleTransactionErrMsgCurrent "check".data errSpacePlain false
    ∧ handleTransactionErrMsgOld "check".data (some xfsFix) errSpacePlain =
      ClassifyResult.stopError oldSpaceMsg
        [("hint", oldSpaceHint "XFS ftype=0 case".data)] := by
  have h1 := c9_legacy_path "1".data "check".data xfsFix (some xfsFix) errSpacePlain false
  have h0 := c9_legacy_path "0".data "check".data xfsFix (some xfsFix) errSpacePlain false
  refine ⟨h1.1 ⟨rfl, rfl⟩, h0.2.1 ?_, ?_⟩
  · rintro ⟨hc, -⟩
    exact absurd hc (by decide)
  · have h3 := h1.2.2 (by decide) (by decide)
    exact h3

/-- Counterexample for C9 as frozen: with the override set, outside a
container, XFS present without ftype and a space failure at stage
`upgrade`, the legacy path raises the plain generic failure — no
remediation article section is selected at all, although the claim
demands the `XFS ftype=0 case` section for exactly this XFS state. -/
theorem c9_legacy_path_counterexample :
    handleTransactionErrMsg "1".data "upgrade".data (some xfsFix) errSpacePlain false =
      ClassifyResult.stopError dnfFailMsg
        [("STDOUT", []), ("STDERR", errSpacePlain.stderr)] := by
  decide

/-! ### C10: unguarded size parse in the container branch (confirmed) -/

/-- C10 (confirmed): in the container branch the size parse is
unguarded — whenever the first stripped marker line fails to match
`At least (.*) more space needed` from its start the classifier ends in
an uncaught exception instead of a categorized error; and a line that
does not begin with `At least ` never matches that pattern. -/
theorem c10_container_parse_guard (legacyOvl stage : Str) (xfs : Option XfsInfo)
    (err : ErrInfo) (first : Str)
    (hmark : noSpaceStr <:+: err.stderr)
    (hfirst : (missingSpaceLines err.stderr).head? = some first) :
    (matchAtLeast first = none →
      handleTransactionErrMsg legacyOvl stage xfs err true = ClassifyResult.uncaught)
    ∧ (¬ (atLeastPre <+: first) → matchAtLeast first = none) := by
  constructor
  · intro hnone
    rw [handleTransactionErrMsg,
      if_neg (fun (h : _ ∧ (true : Bool) = false) => Bool.noConfusion h.2)]
    simp [handleTransactionErrMsgCurrent, hmark, hfirst, hnone]
  · intro hnp
    rw [matchAtLeast, if_neg hnp]

/-- Witness for C10: the concrete stderr whose marker line starts with
`needs`, classified inside a container, crashes. -/
theorem c10_container_parse_guard_witness :
    handleTransactionErrMsg "0".data "check".data none errBadLine true =
      ClassifyResult.uncaught :=
  (c10_container_parse_guard "0".data "check".data none errBadLine
      "needs more space needed on the /var filesystem".data
      (by decide) (by decide)).1 (by decide)

/-! ### C4: bind-mount topology for the upgrade stage (confirmed) -/

/-- A bind string with a colon-free mount point determines that mount
point among fstab-derived binds. -/
theorem not_mem_fstabBinds {major : Str} {fstab : List FstabEntry} {isDir : Str → Bool}
    {mp tail : Str} (hcm : ':' ∉ mp)
    (hcolon : ∀ e ∈ fstab, ':' ∉ e.fs_file)
    (hne : ∀ e ∈ fstab, e.fs_file ≠ mp) :
    mp ++ ':' :: tail ∉ fstabBinds major fstab isDir := by
  intro hmem
  obtain ⟨e, hef, heq⟩ := List.mem_map.mp hmem
  have he : e ∈ fstab := List.mem_of_mem_filter hef
  rw [fstabBind] at heq
  exact hne e he (append_colon_inj e.fs_file mp _ _ (hcolon e he) hcm heq).1

/-- C4 (confirmed): the upgrade-stage bind-mount list always contains
the binds for root, `/dev`, `/proc` and `/run/udev`; for target major
version 8 it binds `/sys` directly to `/installroot/sys`, while for
version 9 host `/hostsys` is bound to `/installroot/sys` instead of any
direct `/sys` bind; the fstab-derived binds `mp:/installroot/mp` appear
contiguously in fstab order, one per directory-backed entry not already
covered; and the `/boot` and `/boot/efi` binds are present exactly when
each is currently its own mount point.  (The hypotheses record that the
filesystem table itself does not list `/sys`, `/boot` or `/boot/efi` and
mount points contain no `:`, so the version/mount conditionals are the
only sources of those binds.) -/
theorem c4_bind_mount_topology (major : Str) (fstab : List FstabEntry)
    (isDir isMount : Str → Bool)
    (hsys : ∀ e ∈ fstab, e.fs_file ≠ "/sys".data)
    (hboot : ∀ e ∈ fstab, e.fs_file ≠ "/boot".data)
    (hefi : ∀ e ∈ fstab, e.fs_file ≠ "/boot/efi".data)
    (hcolon : ∀ e ∈ fstab, ':' ∉ e.fs_file) :
    ("/:/installroot".data ∈ computeBindMounts major fstab isDir isMount
      ∧ "/dev:/installroot/dev".data ∈ computeBindMounts major fstab isDir isMount
      ∧ "/proc:/installroot/proc".data ∈ computeBindMounts major fstab isDir isMount
      ∧ "/run/udev:/installroot/run/udev".data ∈ computeBindMounts major fstab isDir isMount)
    ∧ (major = "8".data →
        "/sys:/installroot/sys".data ∈ computeBindMounts major fstab isDir isMount)
    ∧ (major = "9".data →
        "/hostsys:/installroot/sys".data ∈ computeBindMounts major fstab isDir isMount
        ∧ "/sys:/installroot/sys".data ∉ computeBindMounts major fstab isDir isMount)
    ∧ fstabBinds major fstab isDir <:+: computeBindMounts major fstab isDir isMount
    ∧ ("/boot:/installroot/boot".data ∈ computeBindMounts major fstab isDir isMount ↔
        isMount "/boot".data = true)
    ∧ ("/boot/efi:/installroot/boot/efi".data ∈ computeBindMounts major fstab isDir isMount ↔
        isMount "/boot/efi".data = true) := by
  refine ⟨⟨?_, ?_, ?_, ?_⟩, ?_, ?_, ?_, ?_, ?_⟩
  · simp [computeBindMounts, upgradeBaseBinds]
  · simp [computeBindMounts, upgradeBaseBinds]
  · simp [computeBindMounts, upgradeBaseBinds]
  · simp [computeBindMounts, upgradeBaseBinds]
  · intro h8
    subst h8
    simp [computeBindMounts, upgradeBaseBinds]
  · intro h9
    subst h9
    constructor
    · have h98 : ¬ (("9".data : Str) = "8".data) := by decide
      simp [computeBindMounts, upgradeBaseBinds, h98]
    · intro hmem
      rw [computeBindMounts] at hmem
      rcases List.mem_append.mp hmem with hmem | hef
      · rcases List.mem_append.mp hmem with hmem | hbt
        · rcases List.mem_append.mp hmem with hbase | hfs
          · exact absurd hbase (by decide)
          · have hlit : ("/sys:/installroot/sys".data : Str) =
                "/sys".data ++ ':' :: "/installroot/sys".data := by decide
            rw [hlit] at hfs
            exact not_mem_fstabBinds (by decide) hcolon hsys hfs
        · revert hbt
          split
          · intro hbt
            exact absurd (List.mem_singleton.mp hbt) (by decide)
          · intro hbt
            cases hbt
      · revert hef
        split
        · intro hef
          exact absurd (List.mem_singleton.mp hef) (by decide)
        · intro hef
          cases hef
  · exact ⟨upgradeBaseBinds major,
      (if isMount "/boot".data then ["/boot:/installroot/boot".data] else []) ++
        (if isMount "/boot/efi".data then ["/boot/efi:/installroot/boot/efi".data] else []),
      by rw [computeBindMounts]; simp [List.append_assoc]⟩
  · constructor
    · intro hmem
      rw [computeBindMounts] at hmem
      rcases List.mem_append.mp hmem with hmem | hef
      · rcases List.mem_append.mp hmem with hmem | hbt
        · rcases List.mem_append.mp hmem with hbase | hfs
          · rw [upgradeBaseBinds] at hbase
            rcases List.mem_append.mp hbase with hb4 | hbv
            · exact absurd hb4 (by decide)
            · revert hbv
              split <;> intro hbv <;>
                exact absurd (List.mem_singleton.mp hbv) (by decide)
          · have hlit : ("/boot:/installroot/boot".data : Str) =
                "/boot".data ++ ':' :: "/installroot/boot".data := by decide
            rw [hlit] at hfs
            exact absurd hfs (not_mem_fstabBinds (by decide) hcolon hboot)
        · revert hbt
          split
          · rename_i hm
            intro _
            exact hm
          · intro hbt
            cases hbt
      · revert hef
        split
        · intro hef
          exact absurd (List.mem_singleton.mp hef) (by decide)
        · intro hef
          cases hef
    · intro hm
      rw [computeBindMounts]
      refine List.mem_append.mpr (Or.inl (List.mem_append.mpr (Or.inr ?_)))
      rw [if_pos hm]
      exact List.mem_singleton.mpr rfl
  · constructor
    · intro hmem
      rw [computeBindMounts] at hmem
      rcases List.mem_append.mp hmem with hmem | hef
      · rcases List.mem_append.mp hmem with hmem | hbt
        · rcases List.mem_append.mp hmem with hbase | hfs
          · rw [upgradeBaseBinds] at hbase
            rcases List.mem_append.mp hbase with hb4 | hbv
            · exact absurd hb4 (by decide)
            · revert hbv
              split <;> intro hbv <;>
                exact absurd (List.mem_singleton.mp hbv) (by decide)
          · have hlit : ("/boot/efi:/installroot/boot/efi".data : Str) =
                "/boot/efi".data ++ ':' :: "/installroot/boot/efi".data := by decide
            rw [hlit] at hfs
            exact absurd hfs (not_mem_fstabBinds (by decide) hcolon hefi)
        · revert hbt
          split
          · intro hbt
            exact absurd (List.mem_singleton.mp hbt) (by decide)
          · intro hbt
            cases hbt
      · revert hef
        split
        · rename_i hm
          intro _
          exact hm
        · intro hef
          cases hef
    · intro hm
      rw [computeBindMounts]
      refine List.mem_append.mpr (Or.inr ?_)
      rw [if_pos hm]
      exact List.mem_singleton.mpr rfl

/-- Witness for C4: a concrete version-8 topology over a table holding
`/data`, with `/boot` mounted and `/boot/efi` not. -/
theorem c4_bind_mount_topology_witness :
    "/:/installroot".data ∈
      computeBindMounts "8".data [{ fs_file := "/data".data }]
        (fun _ => true) (fun s => decide (s = "/boot".data))
    ∧ "/sys:/installroot/sys".data ∈
      computeBindMounts "8".data [{ fs_file := "/data".data }]
        (fun _ => true) (fun s => decide (s = "/boot".data))
    ∧ ("/boot:/installroot/boot".data ∈
        computeBindMounts "8".data [{ fs_file := "/data".data }]
          (fun _ => true) (fun s => decide (s = "/boot".data)) ↔
        (fun s => decide (s = "/boot".data)) "/boot".data = true)
    ∧ fstabBinds "8".data [{ fs_file := "/data".data }] (fun _ => true) <:+:
      computeBindMounts "8".data [{ fs_file := "/data".data }]
        (fun _ => true) (fun s => decide (s = "/boot".data)) := by
  have h := c4_bind_mount_topology "8".data [{ fs_file := "/data".data }]
    (fun _ => true) (fun s => decide (s = "/boot".data))
    (by decide) (by decide) (by decide) (by decide)
  exact ⟨h.1.1, h.2.1 rfl, h.2.2.2.2.1, h.2.2.2.1⟩

/-! ### Transaction-run lemmas for C5, C6, C7 -/

/-- The module-reset block produces no Plan-write event. -/
theorem createConfig_not_mem_resetEvents (cfg : TransCfg) (env : TransEnv) (stage : Str)
    (tasks : Tasks) (cmdPre cp : List Str) :
    TEvent.createConfig ∉ resetEvents cfg env stage tasks cmdPre cp := by
  rw [resetEvents]
  split
  · split <;> simp
  · simp

/-- The debug-data backup produces no Plan-write event. -/
theorem createConfig_not_mem_backupDebugData (d ok : Bool) :
    TEvent.createConfig ∉ backupDebugData d ok := by
  rw [backupDebugData]
  split
  · split <;> simp
  · simp

/-- Neither does the conditional `finally` block. -/
theorem createConfig_not_mem_finEvents (c : Prop) [Decidable c] (d ok : Bool) :
    TEvent.createConfig ∉ (if c then backupDebugData d ok else []) := by
  split
  · exact createConfig_not_mem_backupDebugData d ok
  · simp

/-- The module-reset block contains no debug-copy attempt. -/
theorem countP_isDebugCopy_resetEvents (cfg : TransCfg) (env : TransEnv) (stage : Str)
    (tasks : Tasks) (cmdPre cp : List Str) :
    (resetEvents cfg env stage tasks cmdPre cp).countP isDebugCopy = 0 := by
  rw [resetEvents]
  split
  · split <;> rfl
  · rfl

/-- `backup_debug_data` makes exactly one copy attempt iff debug mode is
enabled, regardless of the copy's success. -/
theorem countP_isDebugCopy_backupDebugData (d ok : Bool) :
    (backupDebugData d ok).countP isDebugCopy = if d then 1 else 0 := by
  cases d with
  | false => rfl
  | true =>
    cases ok with
    | false => rfl
    | true => rfl

/-- Copy attempts of the conditional `finally` block. -/
theorem countP_isDebugCopy_finEvents (c : Prop) [Decidable c] (d : Bool) (ok : Bool) :
    (if c then backupDebugData d ok else []).countP isDebugCopy =
      if c ∧ d = true then 1 else 0 := by
  split
  · rename_i hc
    rw [countP_isDebugCopy_backupDebugData]
    cases d <;> simp [hc]
  · rename_i hc
    simp [hc]

/-- The Plan-write event occurs in a `_transaction` run exactly when the
stage is neither `dry-run` nor `upgrade`, independently of everything
else. -/
theorem createConfig_mem_transaction_iff (cfg : TransCfg) (env : TransEnv) (stage : Str)
    (tasks : Tasks) (pluginInfo : List PluginInfo) (cmdPre : List Str) (xfs : Option XfsInfo) :
    TEvent.createConfig ∈ (transactionRun cfg env stage tasks pluginInfo cmdPre xfs).1 ↔
      ¬ (stage ∈ ["dry-run".data, "upgrade".data]) := by
  obtain ⟨bc, mr, dr, ct⟩ := env
  by_cases hc : stage ∈ ["dry-run".data, "upgrade".data]
  all_goals cases bc
  case pos.false =>
    rw [transactionRun]
    simp [hc]
  case pos.true =>
    rcases dr with _ | m | ⟨m, err⟩ <;>
      · rw [transactionRun]
        simp [hc, createConfig_not_mem_resetEvents, createConfig_not_mem_finEvents]
        intro _
        exact createConfig_not_mem_backupDebugData _ _
  case neg.false =>
    rw [transactionRun]
    simp [hc]
  case neg.true =>
    rcases dr with _ | m | ⟨m, err⟩ <;>
      · rw [transactionRun]
        simp [hc, createConfig_not_mem_resetEvents, createConfig_not_mem_finEvents]

/-! ### C7: Plan (re)written iff the stage is check or download -/

/-- C7 (confirmed): for the four pipeline stages, `_transaction`
(re)writes a fresh Plan file exactly when the stage is `check` or
`download`; for `dry-run` and `upgrade` no Plan write happens. -/
theorem c7_plan_regeneration (cfg : TransCfg) (env : TransEnv) (tasks : Tasks)
    (pluginInfo : List PluginInfo) (cmdPre : List Str) (xfs : Option XfsInfo) (stage : Str)
    (hstage : stage ∈ ["check".data, "download".data, "dry-run".data, "upgrade".data]) :
    (TEvent.createConfig ∈ (transactionRun cfg env stage tasks pluginInfo cmdPre xfs).1 ↔
      stage ∈ ["check".data, "download".data]) := by
  rw [createConfig_mem_transaction_iff]
  simp only [List.mem_cons, List.not_mem_nil, or_false] at hstage ⊢
  rcases hstage with rfl | rfl | rfl | rfl <;> decide

/-- Witness for C7: a concrete `check`-stage run writes the Plan. -/
theorem c7_plan_regeneration_witness :
    TEvent.createConfig ∈ (transactionRun cfgFix envOkDnf "check".data tasksFix [] [] none).1 ↔
      ("check".data : Str) ∈ ["check".data, "download".data] :=
  c7_plan_regeneration cfgFix envOkDnf tasksFix [] [] none "check".data (by decide)

/-! ### C5: debug-artifact copy (corrected) -/

/-- C5 (amended): once the stage reaches its `try` block (the Plan
archival copy did not raise), the debug-artifact copy is attempted
exactly once iff the stage is `check` and debug mode is enabled — on
success and on failure alike, because it runs in the `finally` clause —
and zero times otherwise; the outcome of the stage never depends on
whether that copy succeeds, and a failing copy is logged. -/
theorem c5_debug_artifact_copy (cfg : TransCfg) (env : TransEnv) (stage : Str) (tasks : Tasks)
    (pluginInfo : List PluginInfo) (cmdPre : List Str) (xfs : Option XfsInfo)
    (hb : env.backupConfigOk = true) :
    ((transactionRun cfg env stage tasks pluginInfo cmdPre xfs).1.countP isDebugCopy =
      if stage = "check".data ∧ cfg.debug = true then 1 else 0)
    ∧ (transactionRun cfg env stage tasks pluginInfo cmdPre xfs).2 =
      (transactionRun cfg { env with copytreeOk := true } stage tasks pluginInfo cmdPre xfs).2
    ∧ (stage = "check".data → cfg.debug = true → env.copytreeOk = false →
      TEvent.logDebugCopyFailed ∈ (transactionRun cfg env stage tasks pluginInfo cmdPre xfs).1) := by
  obtain ⟨bc, mr, dr, ct⟩ := env
  subst hb
  refine ⟨?_, ?_, ?_⟩
  · rcases dr with _ | m | ⟨m, err⟩ <;>
      · rw [transactionRun]
        simp [List.countP_append, countP_isDebugCopy_resetEvents,
          countP_isDebugCopy_finEvents, List.countP_cons, isDebugCopy]
        try
          intro a _ _ ha
          subst ha
          rfl
  · rcases dr with _ | m | ⟨m, err⟩ <;> rfl
  · intro hs hd hct
    subst hs
    subst hct
    rcases dr with _ | m | ⟨m, err⟩ <;>
      · rw [transactionRun]
        simp [backupDebugData, hd]

/-- Witness for C5: a successful concrete `check`-stage run in debug
mode. -/
theorem c5_debug_artifact_copy_witness :
    ((transactionRun cfgFix envOkDnf "check".data tasksFix [] [] none).1.countP isDebugCopy =
      if ("check".data : Str) = "check".data ∧ cfgFix.debug = true then 1 else 0)
    ∧ (transactionRun cfgFix envOkDnf "check".data tasksFix [] [] none).2 =
      (transactionRun cfgFix { envOkDnf with copytreeOk := true }
        "check".data tasksFix [] [] none).2 := by
  have h := c5_debug_artifact_copy cfgFix envOkDnf "check".data tasksFix [] [] none (by decide)
  exact ⟨h.1, h.2.1⟩

/-- Counterexample for C5 as frozen: with debug enabled, a failing
`check`-stage dnf call still triggers the debug-artifact copy attempt —
the copy is not restricted to success (it runs in a `finally`). -/
theorem c5_debug_artifact_copy_counterexample :
    TEvent.debugCopyAttempt ∈ (transactionRun cfgFix envFailDnf "check".data tasksFix [] [] none).1
    ∧ (transactionRun cfgFix envFailDnf "check".data tasksFix [] [] none).2 ≠ TOutcome.success := by
  exact ⟨by decide, by decide⟩

/-! ### C6: Plan archival copy (corrected) -/

/-- C6 (amended): the Plan archival copy is *not* best-effort — when
`context.copy_from` raises, the exception propagates out of
`_transaction` immediately and the stage fails without ever invoking the
package manager (no `context.call` happens at all). -/
theorem c6_plan_archival_fatal (cfg : TransCfg) (env : TransEnv) (stage : Str) (tasks : Tasks)
    (pluginInfo : List PluginInfo) (cmdPre : List Str) (xfs : Option XfsInfo)
    (hb : env.backupConfigOk = false) :
    transactionRun cfg env stage tasks pluginInfo cmdPre xfs =
      ((if stage ∈ ["dry-run".data, "upgrade".data] then [] else [TEvent.createConfig]) ++
        [TEvent.backupConfigCall], TOutcome.raised)
    ∧ ∀ argv, TEvent.call argv ∉ (transactionRun cfg env stage tasks pluginInfo cmdPre xfs).1 := by
  obtain ⟨bc, mr, dr, ct⟩ := env
  subst hb
  have h1 : transactionRun cfg ⟨false, mr, dr, ct⟩ stage tasks pluginInfo cmdPre xfs =
      ((if stage ∈ ["dry-run".data, "upgrade".data] then [] else [TEvent.createConfig]) ++
        [TEvent.backupConfigCall], TOutcome.raised) := by
    rw [transactionRun]
    simp
  refine ⟨h1, fun argv h => ?_⟩
  rw [h1] at h
  revert h
  split <;> simp

/-- Witness for C6: a concrete run whose archival copy raises produces
the propagated failure and never calls dnf. -/
theorem c6_plan_archival_fatal_witness :
    transactionRun cfgFix envNoBackup "check".data tasksFix [] [] none =
      ((if ("check".data : Str) ∈ ["dry-run".data, "upgrade".data] then []
        else [TEvent.createConfig]) ++ [TEvent.backupConfigCall], TOutcome.raised)
    ∧ TEvent.call ["/usr/bin/dnf".data] ∉
      (transactionRun cfgFix envNoBackup "check".data tasksFix [] [] none).1 := by
  have h := c6_plan_archival_fatal cfgFix envNoBackup "check".data tasksFix [] [] none (by decide)
  exact ⟨h.1, h.2 ["/usr/bin/dnf".data]⟩

/-- Counterexample for C6 as frozen: at a concrete input the failing
archival copy aborts the `check` stage (outcome is the propagated
exception, the package manager is never invoked) — the failure is fatal,
not merely logged. -/
theorem c6_plan_archival_counterexample :
    transactionRun cfgFix envNoBackup "check".data tasksFix [] [] none =
      ([TEvent.createConfig, TEvent.backupConfigCall], TOutcome.raised) := by
  decide
